import Mathlib

/-!
Shallow embedding of Puter's entity-storage field-type table
(`src/backend/src/om/...` — the module exporting `base`, `json`, `string`,
`array`, `flag`, `uuid`, `puter-uuid`, `image-base64`, `url`, `reference`,
`datetime`, `puter-node`).

JavaScript values are embedded as the inductive `JSValue`; each type's
operation becomes a Lean function on `JSValue` (or on `String` where the
operation is only ever reached with a string).  A JS function that can
either return or throw is embedded as a function into a sum-like result
type whose constructors separate returned values from thrown errors, so
the hard/soft error distinction of the source is preserved.  The single
trailing service call of an `adapt` implementation is reified as a
constructor carrying the selector it would be invoked with.
-/

namespace Puter

/-- An entity object (`Entity` from `../entitystorage/Entity`), reduced to the
identifier fields the embedded operations read. -/
structure EntityData where
  id : Int
  mysql_id : Int
deriving DecidableEq, Repr

/-- A filesystem node handle (`FSNodeContext`), reduced to the fields the
embedded operations read (`value.get('path')`, `value.mysql_id`). -/
structure FSNodeData where
  path : String
  mysql_id : Option Int
deriving DecidableEq, Repr

/-- An authenticated user exposed via `ctx.get('user')`. -/
structure UserT where
  username : String
deriving DecidableEq, Repr

/-- An actor identity exposed via `Context.get('actor')`; opaque to the
embedded operations, which only pass it to the access-control service. -/
structure Actor where
  id : Nat
deriving DecidableEq, Repr

/-- Embedding of the JavaScript values the field-type operations receive. -/
inductive JSValue where
  | undefined
  | null
  | bool (b : Bool)
  | num (n : Int)
  | str (s : String)
  | arr (xs : List JSValue)
  | entity (e : EntityData)
  | fsnode (n : FSNodeData)
  | obj

/-- JavaScript `typeof`. -/
def jsTypeof : JSValue → String
  | .undefined => "undefined"
  | .null => "object"
  | .bool _ => "boolean"
  | .num _ => "number"
  | .str _ => "string"
  | .arr _ => "object"
  | .entity _ => "object"
  | .fsnode _ => "object"
  | .obj => "object"

/-- JavaScript truthiness (`!! value`). -/
def jsTruthy : JSValue → Bool
  | .undefined => false
  | .null => false
  | .bool b => b
  | .num n => n != 0
  | .str s => s ≠ ""
  | .arr _ => true
  | .entity _ => true
  | .fsnode _ => true
  | .obj => true

/-- `APIError.create(kind, null, fields)` occurrences in the module.  The two
`field_invalid` call sites carry different field sets (`{key, mod}` in
`array.validate`, `{key, expected}` in `puter-node.adapt`) and get one
constructor each.  `field_too_short` carries `min_length: descriptor.maxlen`
in the source, which is `undefined` when no `maxlen` is configured, hence the
`Option` payload. -/
inductive APIErr where
  | field_too_long (key : String) (max_length : Nat)
  | field_too_short (key : String) (min_length : Option Nat)
  | field_invalid_mod (key : String) (mod : Nat)
  | field_invalid_expected (key : String) (expected : String)
  | forbidden
  | acl_denied (detail : String)
deriving DecidableEq, Repr

/-- A thrown error: an `APIError`, a plain `Error(message)`, or an
`OMTypeError({expected, got})`. -/
inductive ThrownErr where
  | api (e : APIErr)
  | js (msg : String)
  | typeErr (expected got : String)
deriving DecidableEq, Repr

/-- A value returned from a `validate` implementation: a boolean, `undefined`,
a plain `Error(msg)`, an `OMTypeError`, or an `APIError` object returned (not
thrown) as a soft error. -/
inductive VRet where
  | b (val : Bool)
  | noneRet
  | err (msg : String)
  | typeErr (expected got : String)
  | api (e : APIErr)
deriving DecidableEq, Repr

/-- Outcome of a `validate` call: a returned value or a thrown error. -/
inductive VOut where
  | ret (r : VRet)
  | thrown (e : ThrownErr)
deriving DecidableEq, Repr

/-- Outcome of an `adapt` call that never reaches a service: a returned value
or a thrown error. -/
inductive AdaptOut where
  | ret (v : JSValue)
  | thrown (e : ThrownErr)

/-- A field descriptor: the constraint configuration passed as
`{ descriptor }` into every operation.  `none` models an absent property
(`hasOwnProperty` false / `undefined`). -/
structure Descriptor where
  maxlen : Option Nat := none
  minlen : Option Nat := none
  regex : Option String := none
  mod : Option Nat := none
  prefix_ : Option String := none
  service : Option String := none
  fs_permission : Option String := none
  debug : Bool := false
deriving DecidableEq, Repr

/-! ### `string` type -/

/-- `string.adapt`: `undefined` and `null` become `''`, a string passes
through, anything else throws `OMTypeError({expected:'string', got:typeof})`. -/
def stringAdapt : JSValue → AdaptOut
  | .undefined => .ret (.str "")
  | .null => .ret (.str "")
  | .str s => .ret (.str s)
  | v => .thrown (.typeErr "string" (jsTypeof v))

/-- The regex check of `string.validate`, reached only when `descriptor.regex`
is configured.  JS regex matching is external to this module, so the matcher
`rmatch` is a parameter of the embedding. -/
def stringValidateRegex (rmatch : String → String → Bool) (s : String)
    (d : Descriptor) : VOut :=
  match d.regex with
  | some r =>
      if ¬ rmatch s r then .ret (.err ("string does not match regex " ++ r))
      else .ret (.b true)
  | none => .ret (.b true)

/-- The minlen check of `string.validate`.  The source compares
`value.length > descriptor.minlen` and reports `min_length: descriptor.maxlen`;
both are reproduced verbatim. -/
def stringValidateMin (rmatch : String → String → Bool) (s : String)
    (name : String) (d : Descriptor) : VOut :=
  match d.minlen with
  | some m =>
      if s.length > m then .thrown (.api (.field_too_short name d.maxlen))
      else stringValidateRegex rmatch s d
  | none => stringValidateRegex rmatch s d

/-- `string.validate(value, { name, descriptor })`: soft `OMTypeError` for a
non-string, hard `field_too_long` / `field_too_short` for length violations,
soft error for a regex mismatch, `true` otherwise. -/
def stringValidate (rmatch : String → String → Bool) (value : JSValue)
    (name : String) (d : Descriptor) : VOut :=
  match value with
  | .str s =>
      match d.maxlen with
      | some m =>
          if s.length > m then .thrown (.api (.field_too_long name m))
          else stringValidateMin rmatch s name d
      | none => stringValidateMin rmatch s name d
  | v => .ret (.typeErr "string" (jsTypeof v))

/-! ### `array` type -/

/-- The mod check of `array.validate`, reached after the length checks. -/
def arrayValidateMod (len : Nat) (name : String) (d : Descriptor) : VOut :=
  match d.mod with
  | some m =>
      if len % m ≠ 0 then .thrown (.api (.field_invalid_mod name m))
      else .ret (.b true)
  | none => .ret (.b true)

/-- The minlen check of `array.validate`; same `>` comparison and
`min_length: descriptor.maxlen` payload as the source. -/
def arrayValidateMin (len : Nat) (name : String) (d : Descriptor) : VOut :=
  match d.minlen with
  | some m =>
      if len > m then .thrown (.api (.field_too_short name d.maxlen))
      else arrayValidateMod len name d
  | none => arrayValidateMod len name d

/-- `array.validate(value, { name, descriptor })`: soft `OMTypeError` for a
non-array, hard errors for maxlen / minlen / mod violations, `true`
otherwise. -/
def arrayValidate (value : JSValue) (name : String) (d : Descriptor) : VOut :=
  match value with
  | .arr xs =>
      match d.maxlen with
      | some m =>
          if xs.length > m then .thrown (.api (.field_too_long name m))
          else arrayValidateMin xs.length name d
      | none => arrayValidateMin xs.length name d
  | v => .ret (.typeErr "array" (jsTypeof v))

/-! ### `flag` type -/

/-- `flag.adapt`: `undefined→false`, numeric and string `0`/`1` map to
booleans, a native boolean passes through, anything else throws
`OMTypeError`. -/
def flagAdapt : JSValue → AdaptOut
  | .undefined => .ret (.bool false)
  | .num 0 => .ret (.bool false)
  | .num 1 => .ret (.bool true)
  | .str "0" => .ret (.bool false)
  | .str "1" => .ret (.bool true)
  | .bool b => .ret (.bool b)
  | v => .thrown (.typeErr "boolean" (jsTypeof v))

/-! ### String and UUID helpers -/

/-- JavaScript `String.prototype.startsWith`. -/
def jsStartsWith (s p : String) : Bool := p.toList.isPrefixOf s.toList

/-- JavaScript `String.prototype.slice(n)`: the substring from index `n` to
the end. -/
def jsSlice (s : String) (n : Nat) : String := ⟨s.toList.drop n⟩

/-- Lowercase hexadecimal digit. -/
def isHexDigit (c : Char) : Bool := c.isDigit || (('a' ≤ c) && (c ≤ 'f'))

/-- Modelled from the spec: `is_valid_uuid` (imported from `helpers`, not
under `src/`) accepts the canonical textual UUID form — 36 characters with
hyphens at positions 8, 13, 18 and 23 and lowercase hex digits elsewhere. -/
def is_valid_uuid (s : String) : Bool :=
  let cs := s.toList
  cs.length = 36 &&
    (List.range 36).all fun i =>
      if i = 8 || i = 13 || i = 18 || i = 23 then cs.getD i ' ' = '-'
      else isHexDigit (cs.getD i ' ')

/-- Modelled from the spec: `is_valid_uuid4` (imported from `helpers`, not
under `src/`) additionally requires version nibble `4` and a variant nibble
in `8/9/a/b`. -/
def is_valid_uuid4 (s : String) : Bool :=
  is_valid_uuid s && s.toList.getD 14 ' ' = '4' &&
    (let c := s.toList.getD 19 ' '
     c = '8' || c = '9' || c = 'a' || c = 'b')

/-! ### `puter-uuid` type -/

/-- The prefix-plus-hyphen string a `puter-uuid` operation builds: JS
`descriptor.prefix + '-'`, where an absent prefix stringifies to
`"undefined"`. -/
def puterUuidPrefixDash (d : Descriptor) : String :=
  (match d.prefix_ with | some p => p | none => "undefined") ++ "-"

/-- `puter-uuid.validate(value, { descriptor })`: a soft returned error when
the value does not start with the configured prefix, otherwise the boolean
result of `is_valid_uuid` on the remainder after the prefix. -/
def puterUuidValidate (value : String) (d : Descriptor) : VOut :=
  if ¬ jsStartsWith value (puterUuidPrefixDash d) then
    .ret (.err ("UUID does not start with prefix " ++ puterUuidPrefixDash d))
  else
    .ret (.b (is_valid_uuid (jsSlice value (puterUuidPrefixDash d).length)))

/-- `puter-uuid.factory({ descriptor })`: the configured prefix, a hyphen,
then a freshly generated v4 UUID.  Generation is the external `uuid`
library's `v4()`; the generated string is the parameter `u`. -/
def puterUuidFactory (u : String) (d : Descriptor) : String :=
  puterUuidPrefixDash d ++ u

/-! ### `reference` type -/

/-- Outcome of `reference.adapt`: either a value returned without any service
call, or the lookup `svc.read(value)` the call ends with — reified as
`lookup` carrying the argument `read` is invoked on. -/
inductive RefAdaptOut where
  | ret (v : JSValue)
  | lookup (v : JSValue)

/-- `reference.adapt(value, { descriptor })`: without a configured service the
value passes through unchanged; with one, a falsy value returns `null`, an
`Entity` passes through, and anything else is read from the target
service. -/
def referenceAdapt (value : JSValue) (d : Descriptor) : RefAdaptOut :=
  if d.service.isNone then .ret value
  else if ¬ jsTruthy value then .ret .null
  else
    match value with
    | .entity e => .ret (.entity e)
    | v => .lookup v

/-! ### Default persistence for scalar types without `sql_reference` -/

/-- Modelled from the spec: a type whose resolved operation set has no
`sql_reference` (e.g. `string`, which inherits only `is_set` from `base`)
persists the entity value itself as its single column value. -/
def scalar_sql_reference (v : JSValue) : JSValue := v

/-- Modelled from the spec: the inverse direction of the same default
column mapping, applied when loading a stored row. -/
def scalar_sql_dereference (v : JSValue) : JSValue := v

/-! ### `puter-node` type -/

/-- Filesystem-service selectors (`NodeUIDSelector`,
`NodeInternalIDSelector`, `NodePathSelector`). -/
inductive Selector where
  | byUID (uuid : String)
  | byInternalId (store : String) (id : Int)
  | byPath (path : String)
deriving DecidableEq, Repr

/-- Outcome of `puter-node.adapt`: a value returned before the filesystem
service is reached, a thrown error, or the `svc_fs.node(selector)` lookup the
call ends with — reified as `lookup` carrying the selector (`none` embeds the
JS `undefined` selector left when a prefix-free string is not a valid
UUID). -/
inductive PNAdaptOut where
  | ret (v : JSValue)
  | thrown (e : ThrownErr)
  | lookup (sel : Option Selector)

/-- Modelled from the spec: `is_valid_path` (imported from
`filesystem/validation`, not under `src/`) accepts a unix-style path; the
accepted shapes the spec names are absolute paths (after `~` expansion), so
the model is: nonempty and starting with `/`. -/
def is_valid_path (s : String) : Bool :=
  match s.toList with
  | [] => false
  | c :: _ => c = '/'

/-- `puter-node.adapt(value, { name })`: `null` and `FSNodeContext` values
pass through, non-strings return `undefined`; a string whose first character
is outside `/ . ~` is treated as a UUID candidate (an invalid one leaves the
selector `undefined`); otherwise a leading `~` expands through the context
user (throwing when absent), the result must satisfy `is_valid_path`, and
the by-path lookup runs. -/
def puterNodeAdapt (user : Option UserT) (value : JSValue) (name : String) :
    PNAdaptOut :=
  match value with
  | .null => .ret .null
  | .fsnode n => .ret (.fsnode n)
  | .str s =>
      let c0 := s.toList.headD ' '
      if ¬ (c0 = '/' || c0 = '.' || c0 = '~') then
        if is_valid_uuid4 s then .lookup (some (.byUID s))
        else .lookup none
      else
        match (if c0 = '~' then
                 match user with
                 | none => .error (ThrownErr.js "Cannot use ~ without a user")
                 | some u => .ok ("/" ++ u.username ++ jsSlice s 1)
               else .ok s : Except ThrownErr String) with
        | .error e => .thrown e
        | .ok v =>
            if ¬ is_valid_path v then
              .thrown (.api (.field_invalid_expected name
                "unix-style path or UUID"))
            else .lookup (some (.byPath v))
  | _ => .ret .undefined

/-- The access-control service (`svc_acl`): `check` and
`get_safe_acl_error`, both taking the actor, the node and the permission. -/
structure ACLService where
  check : Option Actor → FSNodeData → String → Bool
  get_safe_acl_error : Option Actor → FSNodeData → String → APIErr

/-- `puter-node.validate(value, { name, descriptor })`: `null` passes; a node
whose path is `/` gets a returned `forbidden` before any ACL check; otherwise
the ACL check for the requested permission (default `"see"`) runs and a
denial returns the service's safe error.  (`name` is destructured but unused
by the source.) -/
def puterNodeValidate (acl : ACLService) (actor : Option Actor)
    (value : Option FSNodeData) (d : Descriptor) : VRet :=
  match value with
  | none => .noneRet
  | some node =>
      let permission := d.fs_permission.getD "see"
      if node.path = "/" then .api .forbidden
      else if acl.check actor node permission then .noneRet
      else .api (acl.get_safe_acl_error actor node permission)

/-! ### Helper lemmas -/

theorem jsStartsWith_append (p t : String) : jsStartsWith (p ++ t) p = true := by
  unfold jsStartsWith
  rw [List.isPrefixOf_iff_prefix]
  show p.data <+: (p ++ t).data
  rw [String.data_append]
  exact List.prefix_append p.data t.data

theorem jsSlice_append (p t : String) : jsSlice (p ++ t) p.length = t := by
  unfold jsSlice
  show String.mk (((p ++ t).data).drop p.data.length) = t
  rw [String.data_append, List.drop_left]

theorem is_valid_path_slash (t : String) : is_valid_path ("/" ++ t) = true := by
  have h : ("/" ++ t).data = '/' :: t.data := by
    rw [String.data_append]; rfl
  simp [is_valid_path, h]

theorem is_valid_path_slash2 (a b : String) :
    is_valid_path ("/" ++ a ++ b) = true := by
  have h : ("/" ++ a ++ b).data = '/' :: (a.data ++ b.data) := by
    rw [String.data_append, String.data_append]; rfl
  simp [is_valid_path, h]

/-- The first segment of an absolute unix-style path: the characters after
the leading `/` up to the next `/`.  Used to compare a resolved path against
the claimed "first segment is the username" shape. -/
def firstSegment (s : String) : String :=
  ⟨(s.toList.drop 1).takeWhile (fun c => c ≠ '/')⟩

/-- The pattern `^app-[0-9a-f-]` followed by 36 such characters and the end
of the string — the shape `puter-uuid.factory` output is claimed to match
for prefix `app`. -/
def matchesAppUuidPattern (s : String) : Bool :=
  match s.toList with
  | 'a' :: 'p' :: 'p' :: '-' :: rest =>
      rest.length = 36 && rest.all fun c => isHexDigit c || c = '-'
  | _ => false

theorem is_valid_uuid_length (s : String) (h : is_valid_uuid s = true) :
    s.data.length = 36 := by
  unfold is_valid_uuid at h
  rw [Bool.and_eq_true] at h
  exact of_decide_eq_true h.1

theorem is_valid_uuid_chars (s : String) (h : is_valid_uuid s = true) :
    s.data.all (fun c => isHexDigit c || c = '-') = true := by
  have hlen := is_valid_uuid_length s h
  unfold is_valid_uuid at h
  rw [Bool.and_eq_true] at h
  obtain ⟨-, hall⟩ := h
  rw [List.all_eq_true] at hall ⊢
  intro c hc
  obtain ⟨i, hi, rfl⟩ := List.mem_iff_getElem.mp hc
  have hi36 : i < 36 := by omega
  have hgd : (String.toList s).getD i ' ' = s.data[i] := by
    simp [List.getD_eq_getElem?_getD, List.getElem?_eq_getElem hi]
  have := hall i (List.mem_range.mpr hi36)
  rw [hgd] at this
  by_cases hh : (i = 8 || i = 13 || i = 18 || i = 23) = true
  · rw [if_pos hh] at this
    have : s.data[i] = '-' := of_decide_eq_true this
    simp [this]
  · rw [if_neg hh] at this
    simp [this]

/-! ### Claim theorems -/

/-- C1: the claim states that a string or array value shorter than a
configured `minlen` is rejected with a hard `field_too_short` error carrying
the key and the configured minimum, and that a value at least `minlen` long
passes the check.  The source compares with `>` instead of `<` and reports
`min_length: descriptor.maxlen`: a value shorter than `minlen` passes, and a
value longer than `minlen` throws `field_too_short` carrying the (here
absent) `maxlen`.  This theorem evaluates the embedded code at both kinds of
input, for the string and the array type. -/
theorem c1_minlen_check_inverted :
    stringValidate (fun _ _ => true) (.str "ab") "f" {minlen := some 5} =
      .ret (.b true) ∧
    stringValidate (fun _ _ => true) (.str "abcdef") "f" {minlen := some 5} =
      .thrown (.api (.field_too_short "f" none)) ∧
    arrayValidate (.arr [.num 1, .num 2]) "f" {minlen := some 5} =
      .ret (.b true) ∧
    arrayValidate (.arr [.num 1, .num 2, .num 3, .num 4, .num 5, .num 6]) "f"
      {minlen := some 5} = .thrown (.api (.field_too_short "f" none)) :=
  ⟨by decide, by decide, rfl, rfl⟩

/-- C2: `puter-node.validate` on a node whose path is `/` returns the
`forbidden` error for every access-control service, actor and descriptor, so
in particular the result agrees between any two access-control services. -/
theorem c2_root_forbidden_for_all_acl :
    ∀ (acl acl2 : ACLService) (actor actor2 : Option Actor)
      (d d2 : Descriptor) (node : FSNodeData), node.path = "/" →
      puterNodeValidate acl actor (some node) d = .api .forbidden ∧
      puterNodeValidate acl actor (some node) d =
        puterNodeValidate acl2 actor2 (some node) d2 := by
  intro acl acl2 actor actor2 d d2 node h
  constructor
  · simp [puterNodeValidate, h]
  · simp [puterNodeValidate, h]

/-- C2 witness at a concrete root node, an always-allowing and an
always-denying access-control service. -/
theorem c2_root_forbidden_witness :
    puterNodeValidate ⟨fun _ _ _ => true, fun _ _ _ => .acl_denied "a"⟩ none
        (some ⟨"/", none⟩) {} = .api .forbidden ∧
    puterNodeValidate ⟨fun _ _ _ => true, fun _ _ _ => .acl_denied "a"⟩ none
        (some ⟨"/", none⟩) {} =
      puterNodeValidate ⟨fun _ _ _ => false, fun _ _ _ => .acl_denied "b"⟩
        (some ⟨0⟩) (some ⟨"/", none⟩) {} :=
  c2_root_forbidden_for_all_acl _ _ _ _ _ _ ⟨"/", none⟩ rfl

/-- C3 counterexample: `"hello"` is none of the accepted shapes (it is not
an absolute path, not `~`-prefixed, and not a valid UUID), yet
`puter-node.adapt` throws nothing: it reaches the filesystem service with an
undefined selector. -/
theorem c3_counterexample_prefix_free_not_rejected :
    puterNodeAdapt none (.str "hello") "f" = .lookup none ∧
    is_valid_uuid4 "hello" = false ∧
    is_valid_path "hello" = false :=
  ⟨rfl, by decide, by decide⟩

/-- C3 amended: only strings entering the path branch (first character `/`,
`.` or `~`) that fail path validation after `~` expansion are rejected with
the `field_invalid` ConstraintError naming the expected formats before the
filesystem lookup; a string entering the UUID branch (first character none
of `/`, `.`, `~`) that is not a valid UUID is not rejected — adapt proceeds
to the filesystem-service lookup with an undefined selector. -/
theorem c3_amended_malformed_rejection :
    (∀ (s n : String) (u : Option UserT), s.toList.headD ' ' = '.' →
      is_valid_path s = false →
      puterNodeAdapt u (.str s) n =
        .thrown (.api (.field_invalid_expected n "unix-style path or UUID"))) ∧
    (∀ (s n : String) (u : Option UserT), s.toList.headD ' ' ≠ '/' →
      s.toList.headD ' ' ≠ '.' → s.toList.headD ' ' ≠ '~' →
      is_valid_uuid4 s = false →
      puterNodeAdapt u (.str s) n = .lookup none) := by
  constructor
  · intro s n u h hp
    simp at h
    simp [puterNodeAdapt, h, hp]
  · intro s n u h1 h2 h3 h4
    simp at h1 h2 h3
    simp [puterNodeAdapt, h1, h2, h3, h4]

/-- C3 amended witness: `".x"` is rejected with `field_invalid` before
lookup, while `"hello"` falls through to the lookup with no selector. -/
theorem c3_amended_witness :
    puterNodeAdapt none (.str ".x") "f" =
      .thrown (.api (.field_invalid_expected "f" "unix-style path or UUID")) ∧
    puterNodeAdapt none (.str "xyz") "f" = .lookup none :=
  ⟨c3_amended_malformed_rejection.1 ".x" "f" none (by decide) (by decide),
   c3_amended_malformed_rejection.2 "xyz" "f" none (by decide) (by decide)
     (by decide) (by decide)⟩

/-- C4: a configured `maxlen` exceeded by a string's or array's length makes
`validate` throw a hard `field_too_long` carrying the field key and the
configured maximum, whatever else the descriptor holds. -/
theorem c4_maxlen_hard_field_too_long :
    (∀ (rmatch : String → String → Bool) (s n : String) (d : Descriptor)
      (m : Nat), d.maxlen = some m → s.length > m →
      stringValidate rmatch (.str s) n d =
        .thrown (.api (.field_too_long n m))) ∧
    (∀ (xs : List JSValue) (n : String) (d : Descriptor) (m : Nat),
      d.maxlen = some m → xs.length > m →
      arrayValidate (.arr xs) n d = .thrown (.api (.field_too_long n m))) := by
  constructor
  · intro rmatch s n d m hm hl
    simp [stringValidate, hm, hl]
  · intro xs n d m hm hl
    simp [arrayValidate, hm, hl]

/-- C4 witness: `array.validate` on `[1,2,3,4]` with maxlen 3 throws
`field_too_long` with the field key and limit 3. -/
theorem c4_maxlen_witness :
    arrayValidate (.arr [.num 1, .num 2, .num 3, .num 4]) "f"
      {maxlen := some 3} = .thrown (.api (.field_too_long "f" 3)) :=
  c4_maxlen_hard_field_too_long.2 [.num 1, .num 2, .num 3, .num 4] "f"
    {maxlen := some 3} 3 rfl (by decide)

/-- C5: `string.adapt` maps `undefined` and `null` to the empty string,
returns every string input unchanged, and throws an `OMTypeError` reporting
the expected and actual type for every other input. -/
theorem c5_string_adapt_contract :
    stringAdapt .undefined = .ret (.str "") ∧
    stringAdapt .null = .ret (.str "") ∧
    (∀ s, stringAdapt (.str s) = .ret (.str s)) ∧
    (∀ v, v ≠ .undefined → v ≠ .null → (∀ s, v ≠ .str s) →
      stringAdapt v = .thrown (.typeErr "string" (jsTypeof v))) := by
  refine ⟨rfl, rfl, fun s => rfl, ?_⟩
  intro v h1 h2 h3
  cases v <;> first
    | rfl
    | exact absurd rfl h1
    | exact absurd rfl h2
    | exact absurd rfl (h3 _)

/-- C5 witness: `string.adapt(42)` throws the type-mismatch error reporting
expected `string`, got `number`. -/
theorem c5_string_adapt_witness :
    stringAdapt (.num 42) = .thrown (.typeErr "string" "number") :=
  c5_string_adapt_contract.2.2.2 (.num 42) (fun h => JSValue.noConfusion h)
    (fun h => JSValue.noConfusion h) (fun _ h => JSValue.noConfusion h)

/-- C6: for reference-free scalar types — represented here by `string` and
`flag`, whose resolved operation sets carry no `sql_reference` /
`sql_dereference`, so persistence uses the default single-column mapping —
dereferencing the reference of any adapted value gives the adapted value
back. -/
theorem c6_scalar_sql_roundtrip :
    (∀ x v, stringAdapt x = .ret v →
      scalar_sql_dereference (scalar_sql_reference v) = v) ∧
    (∀ x v, flagAdapt x = .ret v →
      scalar_sql_dereference (scalar_sql_reference v) = v) :=
  ⟨fun _ _ _ => rfl, fun _ _ _ => rfl⟩

/-- C6 witness at the adapted value of the string `"hi"`. -/
theorem c6_scalar_sql_roundtrip_witness :
    scalar_sql_dereference (scalar_sql_reference (.str "hi")) =
      JSValue.str "hi" :=
  c6_scalar_sql_roundtrip.1 (.str "hi") (.str "hi") rfl

/-- C7 counterexample: the claim quantifies over every string beginning with
`~`, but the source computes `homedir + value.slice(1)` — it replaces only
the `~` character, without inserting a separator.  For `"~abc"` with
username `alice` the resolved path is `/aliceabc`, whose first segment
`aliceabc` is not the username. -/
theorem c7_counterexample_tilde_without_separator :
    puterNodeAdapt (some ⟨"alice"⟩) (.str "~abc") "f" =
      .lookup (some (.byPath "/aliceabc")) ∧
    firstSegment "/aliceabc" = "aliceabc" ∧
    "aliceabc" ≠ "alice" :=
  ⟨rfl, by decide, by decide⟩

/-- C7 amended: `puter-node.adapt` on a `~`-prefixed string replaces the
leading `~` with `/` followed by the context user's username and resolves
the result through the by-path selector, so the first segment is the
username exactly when the character after `~` is `/` — in particular
`~/docs` with username `alice` resolves via `/alice/docs`, whose first
segment is `alice`; without a user in context every `~`-prefixed call
throws. -/
theorem c7_amended_tilde_expansion :
    (∀ (uname rest n : String),
      puterNodeAdapt (some ⟨uname⟩) (.str ("~" ++ rest)) n =
        .lookup (some (.byPath ("/" ++ uname ++ rest)))) ∧
    (∀ n : String, puterNodeAdapt (some ⟨"alice"⟩) (.str "~/docs") n =
      .lookup (some (.byPath "/alice/docs"))) ∧
    firstSegment "/alice/docs" = "alice" ∧
    (∀ (rest n : String), puterNodeAdapt none (.str ("~" ++ rest)) n =
      .thrown (.js "Cannot use ~ without a user")) := by
  refine ⟨?_, fun n => rfl, by decide, ?_⟩
  · intro uname rest n
    have hhead : ("~" ++ rest).data = '~' :: rest.data := by
      rw [String.data_append]; rfl
    have hslice : jsSlice ("~" ++ rest) 1 = rest := jsSlice_append "~" rest
    simp [puterNodeAdapt, hhead, hslice, is_valid_path_slash2]
  · intro rest n
    have hhead : ("~" ++ rest).data = '~' :: rest.data := by
      rw [String.data_append]; rfl
    simp [puterNodeAdapt, hhead]

/-- C7 amended witness instantiating the universally quantified parts at
username `alice`, remainder `/docs` and field name `f`. -/
theorem c7_amended_tilde_witness :
    puterNodeAdapt (some ⟨"alice"⟩) (.str ("~" ++ "/docs")) "f" =
      .lookup (some (.byPath ("/" ++ "alice" ++ "/docs"))) ∧
    puterNodeAdapt none (.str ("~" ++ "/docs")) "f" =
      .thrown (.js "Cannot use ~ without a user") :=
  ⟨c7_amended_tilde_expansion.1 "alice" "/docs" "f",
   c7_amended_tilde_expansion.2.2.2 "/docs" "f"⟩

/-- C8: with configured prefix `app`, `puter-uuid.validate` accepts
`app-` followed by a valid v4 UUID, returns a soft (returned, not thrown)
error for a value not starting with `app-`, and `puter-uuid.factory` output
— the prefix, a hyphen, then the freshly generated UUID — matches the
pattern `app-` followed by exactly 36 characters drawn from lowercase hex
digits and hyphens. -/
theorem c8_puter_uuid_prefix_contract :
    (∀ u, is_valid_uuid4 u = true →
      puterUuidValidate ("app-" ++ u) {prefix_ := some "app"} =
        .ret (.b true)) ∧
    (∀ v, jsStartsWith v "app-" = false →
      puterUuidValidate v {prefix_ := some "app"} =
        .ret (.err "UUID does not start with prefix app-")) ∧
    (∀ u, is_valid_uuid4 u = true →
      puterUuidFactory u {prefix_ := some "app"} = "app-" ++ u ∧
      matchesAppUuidPattern (puterUuidFactory u {prefix_ := some "app"}) =
        true) := by
  have hpre : puterUuidPrefixDash {prefix_ := some "app"} = "app-" := by decide
  refine ⟨?_, ?_, ?_⟩
  · intro u h
    unfold puterUuidValidate
    rw [hpre, jsStartsWith_append "app-" u]
    rw [jsSlice_append "app-" u]
    unfold is_valid_uuid4 at h
    rw [Bool.and_eq_true, Bool.and_eq_true] at h
    simp [h.1.1]
  · intro v h
    unfold puterUuidValidate
    rw [hpre, h]
    simp
  · intro u h
    have h4 : is_valid_uuid u = true := by
      unfold is_valid_uuid4 at h
      rw [Bool.and_eq_true, Bool.and_eq_true] at h
      exact h.1.1
    constructor
    · unfold puterUuidFactory
      rw [hpre]
    · have hdata : (puterUuidFactory u {prefix_ := some "app"}).data =
          'a' :: 'p' :: 'p' :: '-' :: u.data := by
        unfold puterUuidFactory
        rw [String.data_append]
        rfl
      unfold matchesAppUuidPattern
      simp only [String.toList, hdata]
      simp [is_valid_uuid_length u h4, is_valid_uuid_chars u h4]

/-- C8 witness at the concrete v4 UUID
`123e4567-e89b-42d3-a456-426614174000`. -/
theorem c8_puter_uuid_witness :
    puterUuidValidate "app-123e4567-e89b-42d3-a456-426614174000"
      {prefix_ := some "app"} = .ret (.b true) ∧
    puterUuidValidate "other-123e4567-e89b-42d3-a456-426614174000"
      {prefix_ := some "app"} =
      .ret (.err "UUID does not start with prefix app-") ∧
    matchesAppUuidPattern
      (puterUuidFactory "123e4567-e89b-42d3-a456-426614174000"
        {prefix_ := some "app"}) = true := by
  refine ⟨?_, ?_, ?_⟩
  · have h := c8_puter_uuid_prefix_contract.1
      "123e4567-e89b-42d3-a456-426614174000" (by decide)
    rw [show ("app-" ++ "123e4567-e89b-42d3-a456-426614174000" : String) =
      "app-123e4567-e89b-42d3-a456-426614174000" from by decide] at h
    exact h
  · exact c8_puter_uuid_prefix_contract.2.1
      "other-123e4567-e89b-42d3-a456-426614174000" (by decide)
  · exact (c8_puter_uuid_prefix_contract.2.2
      "123e4567-e89b-42d3-a456-426614174000" (by decide)).2

/-- C9 counterexample: the claim says that with a configured target service
any value that is not already an Entity is looked up through the service's
read; but `null` is returned as `null` directly, with no lookup. -/
theorem c9_counterexample_null_not_looked_up :
    referenceAdapt .null {service := some "es"} = .ret .null := rfl

/-- C9 amended: without a configured service every value passes through
unchanged; with one, a falsy value returns `null` without any lookup, a
value that is already an Entity passes through unchanged, and any other
(truthy, non-entity) value is looked up through the target service's
read. -/
theorem c9_reference_adapt_amended :
    (∀ (v : JSValue) (d : Descriptor), d.service = none →
      referenceAdapt v d = .ret v) ∧
    (∀ (v : JSValue) (d : Descriptor), d.service.isSome = true →
      jsTruthy v = false → referenceAdapt v d = .ret .null) ∧
    (∀ (e : EntityData) (d : Descriptor), d.service.isSome = true →
      referenceAdapt (.entity e) d = .ret (.entity e)) ∧
    (∀ (v : JSValue) (d : Descriptor), d.service.isSome = true →
      jsTruthy v = true → (∀ e, v ≠ .entity e) →
      referenceAdapt v d = .lookup v) := by
  refine ⟨?_, ?_, ?_, ?_⟩
  · intro v d h
    simp [referenceAdapt, h]
  · intro v d h hf
    obtain ⟨sv, hsv⟩ := Option.isSome_iff_exists.mp h
    simp [referenceAdapt, hsv, hf]
  · intro e d h
    obtain ⟨sv, hsv⟩ := Option.isSome_iff_exists.mp h
    simp [referenceAdapt, hsv, jsTruthy]
  · intro v d h ht he
    obtain ⟨sv, hsv⟩ := Option.isSome_iff_exists.mp h
    cases v with
    | entity e => exact absurd rfl (he e)
    | undefined => simp [jsTruthy] at ht
    | null => simp [jsTruthy] at ht
    | bool b => simp [referenceAdapt, hsv, ht]
    | num m => simp [referenceAdapt, hsv, ht]
    | str s => simp [referenceAdapt, hsv, ht]
    | arr xs => simp [referenceAdapt, hsv, ht]
    | fsnode fn => simp [referenceAdapt, hsv, ht]
    | obj => simp [referenceAdapt, hsv, ht]

/-- C9 amended witness: pass-through without a service, `null` for a falsy
value under a service, entity pass-through, and a lookup for a truthy
non-entity value. -/
theorem c9_reference_adapt_amended_witness :
    referenceAdapt (.str "x") {} = .ret (.str "x") ∧
    referenceAdapt (.num 0) {service := some "es"} = .ret .null ∧
    referenceAdapt (.entity ⟨1, 2⟩) {service := some "es"} =
      .ret (.entity ⟨1, 2⟩) ∧
    referenceAdapt (.str "x") {service := some "es"} = .lookup (.str "x") :=
  ⟨c9_reference_adapt_amended.1 _ _ rfl,
   c9_reference_adapt_amended.2.1 _ _ rfl rfl,
   c9_reference_adapt_amended.2.2.1 _ _ rfl,
   c9_reference_adapt_amended.2.2.2 _ _ rfl (by decide)
     (fun _ h => JSValue.noConfusion h)⟩

/-- C10: every input to `puter-node.adapt` that is not `null`, not an
`FSNodeContext` and not a string returns `undefined` — the `ret` outcome of
the embedding, which by construction involves no filesystem-service lookup
and no thrown error. -/
theorem c10_non_string_adapt_undefined :
    ∀ (v : JSValue) (user : Option UserT) (n : String),
      v ≠ .null → (∀ fs, v ≠ .fsnode fs) → (∀ s, v ≠ .str s) →
      puterNodeAdapt user v n = .ret .undefined := by
  intro v user n h1 h2 h3
  cases v <;> first
    | rfl
    | exact absurd rfl h1
    | exact absurd rfl (h2 _)
    | exact absurd rfl (h3 _)

/-- C10 witness at the number 5 and at a plain object. -/
theorem c10_non_string_adapt_undefined_witness :
    puterNodeAdapt none (.num 5) "f" = .ret .undefined ∧
    puterNodeAdapt none .obj "f" = .ret .undefined :=
  ⟨c10_non_string_adapt_undefined (.num 5) none "f"
      (fun h => JSValue.noConfusion h) (fun _ h => JSValue.noConfusion h)
      (fun _ h => JSValue.noConfusion h),
   c10_non_string_adapt_undefined .obj none "f"
      (fun h => JSValue.noConfusion h) (fun _ h => JSValue.noConfusion h)
      (fun _ h => JSValue.noConfusion h)⟩

end Puter
